import Mathlib

/-!
Verification of the FastMap repository: a fixed-size two-dimensional grid
backed by a one-dimensional JavaScript array, with coordinate-checked and
unchecked accessors.

The TypeScript classes are embedded shallowly:

* `FastMap` embeds the primary implementation `src/src/index.ts`
  (no constructor validation, bounds check without an integrality test).
* `FastMapMemo` embeds the memoizing variant (the first class in
  `src/unnamed/part_002`): constructor validation via `validateSize`,
  integrality in the bounds check, and a coordinate-keyed read cache.
* `FastMapU` embeds the unchecked-accessor variant (the second class in
  `src/unnamed/part_002`): constructor validation, `undefined`-based
  storage, and `GetUnsafe`/`SetUnsafe` (named `GetUnchecked`/`SetUnchecked`
  here), which skip the bounds check.

JavaScript numbers are modelled as rationals (`ℚ`); every number appearing
in the claims and counterexamples is exactly representable as an IEEE
double and all arithmetic performed on it by the code is exact, so the
rational model agrees with the runtime on those inputs.  Runtime values of
the element type are `JsVal T` (a value, `null`, or `undefined`), and the
ECMAScript array-indexing semantics the code relies on is modelled by
`JsArray`.  Methods that may throw are embedded in state-passing style,
returning an `Except` result together with the post-state, so that claims
about side effects and about failed calls leaving the state unchanged are
expressible.
-/

set_option maxHeartbeats 1000000

/-- The maximum length of a JavaScript array, `Math.pow(2, 32) - 1 = 2 ^ 32 - 1`
(stated as a literal so that concrete instances reduce). -/
def jsMaxArrayLength : ℚ := 4294967295

theorem jsMaxArrayLength_eq : jsMaxArrayLength = 2 ^ 32 - 1 := by norm_num [jsMaxArrayLength]

/-- A JavaScript runtime value whose TS-declared element type is `T`:
either a proper value of type `T`, the literal `null`, or `undefined`. -/
inductive JsVal (T : Type) where
  | val : T → JsVal T
  | jsNull : JsVal T
  | undef : JsVal T
deriving DecidableEq

/-- Canonical array-index view of a JS numeric property key: `some i` when
the number is a non-negative integer (JS treats such keys as array indices,
up to the `2 ^ 32 - 1` cap that `JsArray.write` enforces), `none` otherwise. -/
def jsIndex (q : ℚ) : Option ℕ :=
  if q.isInt ∧ 0 ≤ q then some q.num.toNat else none

/-- An ECMAScript `Array` object: `elems` holds the index properties
`0 .. elems.length - 1` (holes appear as `undef`), and `props` holds any
own properties created by writing at a numeric key that is not an array
index (negative, fractional, or at least `2 ^ 32 - 1`). -/
structure JsArray (T : Type) where
  elems : List (JsVal T)
  props : List (ℚ × JsVal T)
deriving DecidableEq

/-- Lookup among non-index own properties; a missing property reads as
`undefined`. -/
def propGet {T : Type} (l : List (ℚ × JsVal T)) (q : ℚ) : JsVal T :=
  match l with
  | [] => JsVal.undef
  | (k, v) :: t => if k = q then v else propGet t q

/-- `a[q]` for a numeric key `q`: an in-range array index reads the
element, anything else reads the own property (or `undefined`). -/
def JsArray.read {T : Type} (a : JsArray T) (q : ℚ) : JsVal T :=
  match jsIndex q with
  | some i => if h : i < a.elems.length then a.elems[i] else propGet a.props q
  | none => propGet a.props q

/-- `a[q] = v` for a numeric key `q`: an array index below the current
length overwrites the element in place; an array index at or beyond the
current length (but below the `2 ^ 32 - 1` cap) extends the array with
holes and sets `length` to `i + 1`; any other key becomes an ordinary own
property and leaves `length` unchanged. -/
def JsArray.write {T : Type} (a : JsArray T) (q : ℚ) (v : JsVal T) : JsArray T :=
  match jsIndex q with
  | some i =>
    if i < a.elems.length then ⟨a.elems.set i v, a.props⟩
    else if i < 2 ^ 32 - 1 then
      ⟨a.elems ++ List.replicate (i - a.elems.length) JsVal.undef ++ [v], a.props⟩
    else ⟨a.elems, (q, v) :: a.props⟩
  | none => ⟨a.elems, (q, v) :: a.props⟩

/-- The primary implementation, `src/src/index.ts`: fields `map`, `width`,
`height`. -/
structure FastMap (T : Type) where
  map : JsArray T
  width : ℚ
  height : ℚ
deriving DecidableEq

/-- `new FastMap(width, height)` in `src/src/index.ts`: no validation of
its own; `new Array(width * height)` throws a `RangeError` ("Invalid array
length") unless `width * height` is an integer in `[0, 2 ^ 32 - 1]`, and on
success the slots are `.fill(null)`-ed. -/
def FastMap.make (T : Type) (width height : ℚ) : Except String (FastMap T) :=
  let n := width * height
  if n.isInt ∧ 0 ≤ n ∧ n ≤ jsMaxArrayLength then
    Except.ok
      { map := ⟨List.replicate n.num.toNat JsVal.jsNull, []⟩
        width := width
        height := height }
  else
    Except.error "Invalid array length"

/-- `CheckIndicesAreValid` in `src/src/index.ts`: range test only, with no
integrality test. -/
def FastMap.CheckIndicesAreValid {T : Type} (g : FastMap T) (x y : ℚ) : Bool :=
  decide (0 ≤ x) && decide (x < g.width) && decide (0 ≤ y) && decide (y < g.height)

/-- `Convert2DTo1D` in `src/src/index.ts`: row-major index `y * width + x`. -/
def FastMap.Convert2DTo1D {T : Type} (g : FastMap T) (x y : ℚ) : ℚ :=
  y * g.width + x

/-- `Get` in `src/src/index.ts`: throw "Index out of bounds" when the check
fails, otherwise read `map[Convert2DTo1D(x, y)]`. -/
def FastMap.Get {T : Type} (g : FastMap T) (x y : ℚ) :
    Except String (JsVal T) × FastMap T :=
  if !(g.CheckIndicesAreValid x y) then
    (Except.error "Index out of bounds", g)
  else
    (Except.ok (g.map.read (g.Convert2DTo1D x y)), g)

/-- `Set` in `src/src/index.ts`: throw "Index out of bounds" when the check
fails, otherwise write `map[Convert2DTo1D(x, y)] = value`. -/
def FastMap.Set {T : Type} (g : FastMap T) (x y : ℚ) (value : JsVal T) :
    Except String Unit × FastMap T :=
  if !(g.CheckIndicesAreValid x y) then
    (Except.error "Index out of bounds", g)
  else
    (Except.ok (), { g with map := g.map.write (g.Convert2DTo1D x y) value })

/-- `Width` in `src/src/index.ts`. -/
def FastMap.Width {T : Type} (g : FastMap T) : ℚ := g.width

/-- `Height` in `src/src/index.ts`. -/
def FastMap.Height {T : Type} (g : FastMap T) : ℚ := g.height

/-- Well-formedness of a primary grid state: the dimensions are the
naturals `w` and `h` and the element list has length `w * h` (true of
every freshly constructed grid and preserved by integer-coordinate
operations). -/
def FastMap.WF {T : Type} (g : FastMap T) (w h : ℕ) : Prop :=
  g.width = (w : ℚ) ∧ g.height = (h : ℚ) ∧ g.map.elems.length = w * h

/-- JavaScript truthiness for values of the element type (needed to model
the `|| null` coercion in the memoizing variant's `Get`). -/
class JsFalsy (T : Type) where
  falsy : T → Bool

/-- The JS number `0` is falsy; every other integer is truthy. -/
instance : JsFalsy ℤ := ⟨fun n => n == 0⟩

/-- Truthiness of a runtime value: `null` and `undefined` are falsy, and a
proper value is falsy exactly when `T`-falsy. -/
def JsVal.isFalsy {T : Type} [JsFalsy T] : JsVal T → Bool
  | .val v => JsFalsy.falsy v
  | .jsNull => true
  | .undef => true

/-- The JS expression `e || null`. -/
def JsVal.orNull {T : Type} [JsFalsy T] (v : JsVal T) : JsVal T :=
  if v.isFalsy then JsVal.jsNull else v

/-- The memoizing variant (first class in `src/unnamed/part_002`): fields
`map`, `width`, `height`, and a `Map` keyed by the string `` `${x},${y}` ``
(the keys are stringified number pairs, so they are modelled by the pairs
themselves, which stringify injectively). -/
structure FastMapMemo (T : Type) where
  map : JsArray T
  width : ℚ
  height : ℚ
  memoCache : List ((ℚ × ℚ) × JsVal T)
deriving DecidableEq

/-- `Map.prototype.get` combined with `Map.prototype.has`: the entry stored
at the key, if any (keys in `memoCache` are unique: entries are only added
on a cache miss). -/
def cacheGet {T : Type} (l : List ((ℚ × ℚ) × JsVal T)) (k : ℚ × ℚ) :
    Option (JsVal T) :=
  match l with
  | [] => none
  | (k₂, v) :: t => if k₂ = k then some v else cacheGet t k

/-- `Map.prototype.delete`: removes the entry stored at the key, if any. -/
def cacheDelete {T : Type} (l : List ((ℚ × ℚ) × JsVal T)) (k : ℚ × ℚ) :
    List ((ℚ × ℚ) × JsVal T) :=
  match l with
  | [] => []
  | (k₂, v) :: t => if k₂ = k then t else (k₂, v) :: cacheDelete t k

/-- `validateSize` of the memoizing variant (`src/unnamed/part_002`,
first class): three distinct error messages for non-integer, non-positive
and too-large dimensions. -/
def FastMapMemo.validateSize (width height : ℚ) : Except String Unit :=
  if !width.isInt || !height.isInt then
    Except.error "Width and Height must be Integer values"
  else if width ≤ 0 ∨ height ≤ 0 then
    Except.error "Width and height must be greater than 0"
  else if jsMaxArrayLength < width * height then
    Except.error "Specified dimensions are too large"
  else
    Except.ok ()

/-- `new FastMap(width, height)` of the memoizing variant: `validateSize`
first (so a failure produces no object at all), then
`new Array(width * height).fill(null)`; validation guarantees that
`width * height` is an integer in `(0, 2 ^ 32 - 1]`, so the allocation
itself cannot throw. -/
def FastMapMemo.make (T : Type) (width height : ℚ) :
    Except String (FastMapMemo T) := do
  FastMapMemo.validateSize width height
  pure
    { map := ⟨List.replicate (width * height).num.toNat JsVal.jsNull, []⟩
      width := width
      height := height
      memoCache := [] }

/-- `checkIndicesAreValid` of the memoizing variant: integrality of both
coordinates plus the range test. -/
def FastMapMemo.checkIndicesAreValid {T : Type} (g : FastMapMemo T) (x y : ℚ) :
    Bool :=
  x.isInt && y.isInt &&
    decide (0 ≤ x) && decide (x < g.width) && decide (0 ≤ y) && decide (y < g.height)

/-- `convert2DTo1D` of the memoizing variant. -/
def FastMapMemo.convert2DTo1D {T : Type} (g : FastMapMemo T) (x y : ℚ) : ℚ :=
  y * g.width + x

/-- `Get` of the memoizing variant: a cache hit returns
`memoCache.get(key) || null` without touching the array; a cache miss
performs the bounds check, reads the slot, stores it in the cache, and
returns it. -/
def FastMapMemo.Get {T : Type} [JsFalsy T] (g : FastMapMemo T) (x y : ℚ) :
    Except String (JsVal T) × FastMapMemo T :=
  match cacheGet g.memoCache (x, y) with
  | some c => (Except.ok c.orNull, g)
  | none =>
    if !(g.checkIndicesAreValid x y) then
      (Except.error "Index out of bounds", g)
    else
      let value := g.map.read (g.convert2DTo1D x y)
      (Except.ok value, { g with memoCache := ((x, y), value) :: g.memoCache })

/-- `Set` of the memoizing variant: bounds check, write the slot, then
invalidate the cache entry for the key. -/
def FastMapMemo.Set {T : Type} (g : FastMapMemo T) (x y : ℚ) (value : JsVal T) :
    Except String Unit × FastMapMemo T :=
  if !(g.checkIndicesAreValid x y) then
    (Except.error "Index out of bounds", g)
  else
    (Except.ok (),
     { g with
        map := g.map.write (g.convert2DTo1D x y) value
        memoCache := cacheDelete g.memoCache (x, y) })

/-- The unchecked-accessor variant (second class in `src/unnamed/part_002`):
`undefined`-based storage, validated construction, checked `Get`/`Set`, and
unchecked accessors named `GetUnsafe`/`SetUnsafe` in the source (rendered
`GetUnchecked`/`SetUnchecked` here). -/
structure FastMapU (T : Type) where
  map : JsArray T
  width : ℚ
  height : ℚ
deriving DecidableEq

/-- `validateSize` of the unchecked-accessor variant (identical text to the
memoizing variant's). -/
def FastMapU.validateSize (width height : ℚ) : Except String Unit :=
  if !width.isInt || !height.isInt then
    Except.error "Width and Height must be Integer values"
  else if width ≤ 0 ∨ height ≤ 0 then
    Except.error "Width and height must be greater than 0"
  else if jsMaxArrayLength < width * height then
    Except.error "Specified dimensions are too large"
  else
    Except.ok ()

/-- `new FastMap(width, height)` of the unchecked-accessor variant:
`validateSize`, then `new Array(width * height)` with no `.fill` — every
slot starts as a hole, i.e. `undefined`. -/
def FastMapU.make (T : Type) (width height : ℚ) : Except String (FastMapU T) := do
  FastMapU.validateSize width height
  pure
    { map := ⟨List.replicate (width * height).num.toNat JsVal.undef, []⟩
      width := width
      height := height }

/-- `checkIndicesAreValid` of the unchecked-accessor variant. -/
def FastMapU.checkIndicesAreValid {T : Type} (g : FastMapU T) (x y : ℚ) : Bool :=
  x.isInt && y.isInt &&
    decide (0 ≤ x) && decide (x < g.width) && decide (0 ≤ y) && decide (y < g.height)

/-- `convert2DTo1D` of the unchecked-accessor variant. -/
def FastMapU.convert2DTo1D {T : Type} (g : FastMapU T) (x y : ℚ) : ℚ :=
  y * g.width + x

/-- `Get` of the unchecked-accessor variant: bounds check, then read. -/
def FastMapU.Get {T : Type} (g : FastMapU T) (x y : ℚ) :
    Except String (JsVal T) × FastMapU T :=
  if !(g.checkIndicesAreValid x y) then
    (Except.error "Index out of bounds", g)
  else
    (Except.ok (g.map.read (g.convert2DTo1D x y)), g)

/-- `Set` of the unchecked-accessor variant: bounds check, then write. -/
def FastMapU.Set {T : Type} (g : FastMapU T) (x y : ℚ) (value : JsVal T) :
    Except String Unit × FastMapU T :=
  if !(g.checkIndicesAreValid x y) then
    (Except.error "Index out of bounds", g)
  else
    (Except.ok (), { g with map := g.map.write (g.convert2DTo1D x y) value })

/-- The source's `GetUnsafe`: `return this.map[y * this.width + x]`, with
no bounds check. -/
def FastMapU.GetUnchecked {T : Type} (g : FastMapU T) (x y : ℚ) : JsVal T :=
  g.map.read (y * g.width + x)

/-- The source's `SetUnsafe`: `this.map[y * this.width + x] = value`, with
no bounds check. -/
def FastMapU.SetUnchecked {T : Type} (g : FastMapU T) (x y : ℚ) (value : JsVal T) :
    FastMapU T :=
  { g with map := g.map.write (y * g.width + x) value }

/-- `Width` of the unchecked-accessor variant. -/
def FastMapU.Width {T : Type} (g : FastMapU T) : ℚ := g.width

/-- `Height` of the unchecked-accessor variant. -/
def FastMapU.Height {T : Type} (g : FastMapU T) : ℚ := g.height

/-- Well-formedness of an unchecked-variant grid state: natural dimensions
and an element list of matching length. -/
def FastMapU.WF {T : Type} (g : FastMapU T) (w h : ℕ) : Prop :=
  g.width = (w : ℚ) ∧ g.height = (h : ℚ) ∧ g.map.elems.length = w * h

/-- A 3 × 3 primary grid exactly as freshly constructed by `new FastMap(3, 3)`. -/
def grid3 : FastMap ℕ := ⟨⟨List.replicate 9 JsVal.jsNull, []⟩, 3, 3⟩

/-- A 3 × 3 memoizing-variant grid over JS numbers, exactly as freshly
constructed. -/
def memoGrid : FastMapMemo ℤ := ⟨⟨List.replicate 9 JsVal.jsNull, []⟩, 3, 3, []⟩

/-- `memoGrid` after `Set(1, 1, 0)`. -/
def memoGrid1 : FastMapMemo ℤ := (memoGrid.Set 1 1 (JsVal.val 0)).2

/-- A 2 × 2 unchecked-accessor-variant grid exactly as freshly constructed. -/
def gridU : FastMapU ℕ := ⟨⟨List.replicate 4 JsVal.undef, []⟩, 2, 2⟩

theorem natCast_isInt (n : ℕ) : ((n : ℚ)).isInt = true := by
  simp [Rat.isInt]

theorem natCast_toNat_num (n : ℕ) : ((n : ℚ)).num.toNat = n := by
  simp

theorem jsIndex_natCast (n : ℕ) : jsIndex (n : ℚ) = some n := by
  simp [jsIndex, natCast_isInt, Nat.cast_nonneg]

theorem JsArray.read_natIdx {T : Type} (a : JsArray T) (i : ℕ)
    (h : i < a.elems.length) : a.read (i : ℚ) = a.elems.getD i JsVal.undef := by
  simp [JsArray.read, jsIndex_natCast, h, List.getD_eq_getElem]

theorem JsArray.write_natIdx {T : Type} (a : JsArray T) (i : ℕ)
    (h : i < a.elems.length) (v : JsVal T) :
    a.write (i : ℚ) v = ⟨a.elems.set i v, a.props⟩ := by
  simp [JsArray.write, jsIndex_natCast, h]

theorem rowMajor_lt {w h x y : ℕ} (hx : x < w) (hy : y < h) :
    y * w + x < w * h :=
  calc y * w + x < y * w + w := by omega
    _ = (y + 1) * w := by ring
    _ ≤ h * w := Nat.mul_le_mul_right w hy
    _ = w * h := Nat.mul_comm h w

theorem rowMajor_step_lt {w x₁ y₁ x₂ y₂ : ℕ} (hx₁ : x₁ < w) (hlt : y₁ < y₂) :
    y₁ * w + x₁ < y₂ * w + x₂ :=
  calc y₁ * w + x₁ < y₁ * w + w := Nat.add_lt_add_left hx₁ _
    _ = (y₁ + 1) * w := by ring
    _ ≤ y₂ * w := Nat.mul_le_mul_right w hlt
    _ ≤ y₂ * w + x₂ := Nat.le_add_right _ _

theorem rowMajor_inj {w x₁ y₁ x₂ y₂ : ℕ} (hx₁ : x₁ < w) (hx₂ : x₂ < w)
    (he : y₁ * w + x₁ = y₂ * w + x₂) : x₁ = x₂ ∧ y₁ = y₂ := by
  have hy : y₁ = y₂ := by
    rcases Nat.lt_trichotomy y₁ y₂ with hlt | heq | hgt
    · exact absurd he (Nat.ne_of_lt (rowMajor_step_lt hx₁ hlt))
    · exact heq
    · exact absurd he.symm (Nat.ne_of_lt (rowMajor_step_lt hx₂ hgt))
  subst hy
  exact ⟨Nat.add_left_cancel he, rfl⟩

theorem Rat.eq_natCast_of_isInt {q : ℚ} (h1 : q.isInt = true) (h2 : 0 ≤ q) :
    q = (q.num.toNat : ℚ) := by
  have hden : q.den = 1 := by simpa [Rat.isInt] using h1
  have hnum : (q.num : ℚ) = q := by
    rw [← Rat.num_div_den q, hden]
    simp
  have hn : 0 ≤ q.num := Rat.num_nonneg.mpr h2
  rw [← hnum]
  exact_mod_cast congrArg (fun z : ℤ => (z : ℚ)) (Int.toNat_of_nonneg hn).symm

theorem FastMap.check_of_lt {T : Type} (g : FastMap T) {w h x y : ℕ}
    (hg : g.WF w h) (hx : x < w) (hy : y < h) :
    g.CheckIndicesAreValid (x : ℚ) (y : ℚ) = true := by
  obtain ⟨hw, hh, -⟩ := hg
  simp only [FastMap.CheckIndicesAreValid, hw, hh, Bool.and_eq_true, decide_eq_true_eq]
  exact ⟨⟨⟨Nat.cast_nonneg x, by exact_mod_cast hx⟩, Nat.cast_nonneg y⟩, by exact_mod_cast hy⟩

theorem FastMap.convert_natCast {T : Type} (g : FastMap T) {w h : ℕ}
    (hg : g.WF w h) (x y : ℕ) :
    g.Convert2DTo1D (x : ℚ) (y : ℚ) = ((y * w + x : ℕ) : ℚ) := by
  obtain ⟨hw, -, -⟩ := hg
  simp only [FastMap.Convert2DTo1D, hw]
  push_cast
  ring

theorem FastMap.Get_valid {T : Type} (g : FastMap T) {w h x y : ℕ}
    (hg : g.WF w h) (hx : x < w) (hy : y < h) :
    g.Get (x : ℚ) (y : ℚ) =
      (Except.ok (g.map.elems.getD (y * w + x) JsVal.undef), g) := by
  have hidx : y * w + x < g.map.elems.length := hg.2.2 ▸ rowMajor_lt hx hy
  rw [FastMap.Get, FastMap.check_of_lt g hg hx hy, FastMap.convert_natCast g hg,
    JsArray.read_natIdx g.map _ hidx]
  rfl

theorem FastMap.Set_valid {T : Type} (g : FastMap T) {w h x y : ℕ}
    (hg : g.WF w h) (hx : x < w) (hy : y < h) (v : JsVal T) :
    g.Set (x : ℚ) (y : ℚ) v =
      (Except.ok (),
       { g with map := ⟨g.map.elems.set (y * w + x) v, g.map.props⟩ }) := by
  have hidx : y * w + x < g.map.elems.length := hg.2.2 ▸ rowMajor_lt hx hy
  rw [FastMap.Set, FastMap.check_of_lt g hg hx hy, FastMap.convert_natCast g hg,
    JsArray.write_natIdx g.map _ hidx]
  rfl

theorem FastMap.WF_set {T : Type} (g : FastMap T) {w h : ℕ} (hg : g.WF w h)
    (i : ℕ) (v : JsVal T) :
    ({ g with map := ⟨g.map.elems.set i v, g.map.props⟩ } : FastMap T).WF w h := by
  obtain ⟨hw, hh, hl⟩ := hg
  exact ⟨hw, hh, by simpa using hl⟩

theorem FastMap.set_then_get {T : Type} (g : FastMap T) {w h x y : ℕ}
    (hg : g.WF w h) (hx : x < w) (hy : y < h) (v : JsVal T) :
    (((g.Set (x : ℚ) (y : ℚ) v).2).Get (x : ℚ) (y : ℚ)).1 = Except.ok v := by
  rw [FastMap.Set_valid g hg hx hy v]
  have hg' := FastMap.WF_set g hg (y * w + x) v
  rw [FastMap.Get_valid _ hg' hx hy]
  have hidx : y * w + x < g.map.elems.length := hg.2.2 ▸ rowMajor_lt hx hy
  simp [List.getD_eq_getElem, hidx]

theorem FastMapU.check_valid_of_lt {T : Type} (g : FastMapU T) {w h x y : ℕ}
    (hg : g.WF w h) (hx : x < w) (hy : y < h) :
    g.checkIndicesAreValid (x : ℚ) (y : ℚ) = true := by
  obtain ⟨hw, hh, -⟩ := hg
  simp only [FastMapU.checkIndicesAreValid, hw, hh, Bool.and_eq_true,
    decide_eq_true_eq, natCast_isInt]
  refine ⟨⟨⟨⟨⟨trivial, trivial⟩, Nat.cast_nonneg x⟩, ?_⟩, Nat.cast_nonneg y⟩, ?_⟩
  · exact_mod_cast hx
  · exact_mod_cast hy

theorem FastMapMemo.make_error {T : Type} {w h : ℚ} {m : String}
    (he : FastMapMemo.validateSize w h = Except.error m) :
    FastMapMemo.make T w h = Except.error m := by
  unfold FastMapMemo.make
  rw [he]
  rfl

theorem FastMapMemo.validateSize_nonInteger {w h : ℚ}
    (h1 : ¬ w.isInt = true ∨ ¬ h.isInt = true) :
    FastMapMemo.validateSize w h =
      Except.error "Width and Height must be Integer values" := by
  unfold FastMapMemo.validateSize
  have hb : (!w.isInt || !h.isInt) = true := by
    rcases h1 with h1 | h1 <;> simp [Bool.not_eq_true] at h1 <;> simp [h1]
  simp [hb]

theorem FastMapMemo.validateSize_nonPositive {w h : ℚ}
    (h1 : w.isInt = true) (h2 : h.isInt = true) (h3 : w ≤ 0 ∨ h ≤ 0) :
    FastMapMemo.validateSize w h =
      Except.error "Width and height must be greater than 0" := by
  unfold FastMapMemo.validateSize
  have hb : (!w.isInt || !h.isInt) = false := by simp [h1, h2]
  simp [hb, h3]

theorem FastMapMemo.validateSize_tooLarge {w h : ℚ}
    (h1 : w.isInt = true) (h2 : h.isInt = true) (h3 : 0 < w) (h4 : 0 < h)
    (h5 : jsMaxArrayLength < w * h) :
    FastMapMemo.validateSize w h =
      Except.error "Specified dimensions are too large" := by
  unfold FastMapMemo.validateSize
  have hb : (!w.isInt || !h.isInt) = false := by simp [h1, h2]
  have hp : ¬ (w ≤ 0 ∨ h ≤ 0) := by push_neg; exact ⟨h3, h4⟩
  simp [hb, hp, h5]

/-- C1 (amended): in the validated variants of the repository
(`validateSize`, present in `src/unnamed/part_001` and both classes of
`src/unnamed/part_002`) the constructor fails with an error message that
distinguishes "non-integer dimension", "non-positive dimension" and
"dimensions too large", and a failed construction yields an error value
and no grid, so no partial allocation is observable.  The primary
implementation `src/src/index.ts` performs no such validation — see the
counterexample, where `Grid(0, 5)` constructs successfully. -/
theorem claim1_construction_validation (T : Type) (w h : ℚ) :
    ((¬ w.isInt = true ∨ ¬ h.isInt = true) →
      FastMapMemo.make T w h =
        Except.error "Width and Height must be Integer values") ∧
    (w.isInt = true → h.isInt = true → (w ≤ 0 ∨ h ≤ 0) →
      FastMapMemo.make T w h =
        Except.error "Width and height must be greater than 0") ∧
    (w.isInt = true → h.isInt = true → 0 < w → 0 < h →
      jsMaxArrayLength < w * h →
      FastMapMemo.make T w h =
        Except.error "Specified dimensions are too large") := by
  refine ⟨fun h1 => ?_, fun h1 h2 h3 => ?_, fun h1 h2 h3 h4 h5 => ?_⟩
  · exact FastMapMemo.make_error (FastMapMemo.validateSize_nonInteger h1)
  · exact FastMapMemo.make_error (FastMapMemo.validateSize_nonPositive h1 h2 h3)
  · exact FastMapMemo.make_error (FastMapMemo.validateSize_tooLarge h1 h2 h3 h4 h5)

/-- C1 counterexample: in the primary implementation (`src/src/index.ts`),
`new FastMap(0, 5)` raises nothing at all — it returns a grid with an
empty storage — so "every constructor call with a non-positive dimension
raises a ValidationError" is false of the code as a whole. -/
theorem claim1_counterexample :
    FastMap.make ℕ 0 5 = Except.ok ⟨⟨[], []⟩, 0, 5⟩ := by
  with_unfolding_all rfl

/-- C1 witness: the amended theorem applied at the concrete call
`new FastMap(2.5, 5)` of the validated variant. -/
theorem claim1_witness :
    FastMapMemo.make ℤ (5/2) 5 =
      Except.error "Width and Height must be Integer values" :=
  (claim1_construction_validation ℤ (5/2) 5).1
    (Or.inl (by with_unfolding_all decide))

theorem FastMap.check_iff_inRange {T : Type} (g : FastMap T) (x y : ℚ) :
    g.CheckIndicesAreValid x y = true ↔
      ¬ (x < 0 ∨ g.width ≤ x ∨ y < 0 ∨ g.height ≤ y) := by
  simp only [FastMap.CheckIndicesAreValid, Bool.and_eq_true, decide_eq_true_eq,
    not_or, not_lt, not_le]
  tauto

/-- C2 (amended): in the primary implementation (`src/src/index.ts`),
`Get` and `Set` raise "Index out of bounds" exactly when the coordinate is
out of range (`x < 0 ∨ width ≤ x ∨ y < 0 ∨ height ≤ y`); a non-integer
coordinate inside the range is NOT rejected (see the counterexample), and
a failed `Set` leaves the grid — hence every slot — unchanged. -/
theorem claim2_bounds_law {T : Type} (g : FastMap T) (x y : ℚ) (v : JsVal T) :
    ((x < 0 ∨ g.width ≤ x ∨ y < 0 ∨ g.height ≤ y) ↔
      (g.Get x y).1 = Except.error "Index out of bounds") ∧
    ((x < 0 ∨ g.width ≤ x ∨ y < 0 ∨ g.height ≤ y) ↔
      (g.Set x y v).1 = Except.error "Index out of bounds") ∧
    ((g.Set x y v).1 = Except.error "Index out of bounds" →
      (g.Set x y v).2 = g) := by
  by_cases hb : x < 0 ∨ g.width ≤ x ∨ y < 0 ∨ g.height ≤ y
  · have hc : g.CheckIndicesAreValid x y = false := by
      rw [← Bool.not_eq_true, (FastMap.check_iff_inRange g x y).not_left]
      simpa using hb
    simp [FastMap.Get, FastMap.Set, hc, hb]
  · have hc : g.CheckIndicesAreValid x y = true :=
      (FastMap.check_iff_inRange g x y).mpr hb
    simp [FastMap.Get, FastMap.Set, hc, hb]

/-- C2 counterexample: on a well-formed 3 × 3 primary grid, `Get(0.5, 0)`
— a non-integer coordinate — raises nothing: it returns successfully
(with the JS value `undefined`), and likewise `Set(0.5, 0, v)` succeeds,
contradicting "both Get and Set raise OutOfBounds when x or y is not an
integer". -/
theorem claim2_counterexample :
    grid3.WF 3 3 ∧
    (grid3.Get (1/2) 0).1 = Except.ok JsVal.undef ∧
    (grid3.Set (1/2) 0 (JsVal.val 7)).1 = Except.ok () := by
  refine ⟨⟨by with_unfolding_all rfl, by with_unfolding_all rfl, by with_unfolding_all rfl⟩, ?_, ?_⟩
  · with_unfolding_all rfl
  · with_unfolding_all rfl

/-- C2 witness: the amended theorem applied to the 3 × 3 grid at the
out-of-range coordinate `(-1, 0)`: both calls fail with "Index out of
bounds" and the failed `Set` leaves the state unchanged. -/
theorem claim2_witness :
    (grid3.Get (-1) 0).1 = Except.error "Index out of bounds" ∧
    (grid3.Set (-1) 0 (JsVal.val 7)).1 = Except.error "Index out of bounds" ∧
    (grid3.Set (-1) 0 (JsVal.val 7)).2 = grid3 := by
  have h := claim2_bounds_law grid3 (-1) 0 (JsVal.val 7)
  have hb : (-1 : ℚ) < 0 ∨ grid3.width ≤ -1 ∨ (0 : ℚ) < 0 ∨ grid3.height ≤ 0 :=
    Or.inl (by norm_num)
  exact ⟨h.1.mp hb, h.2.1.mp hb, h.2.2 (h.2.1.mp hb)⟩

/-- C3 (confirmed): on every well-formed primary grid, for every in-range
integer coordinate pair and every value `v` (a proper value or `null`),
`Set(x, y, v)` followed by `Get(x, y)` returns exactly `v`. -/
theorem claim3_roundtrip {T : Type} (g : FastMap T) {w h x y : ℕ}
    (hg : g.WF w h) (hx : x < w) (hy : y < h) (v : JsVal T) :
    (((g.Set (x : ℚ) (y : ℚ) v).2).Get (x : ℚ) (y : ℚ)).1 = Except.ok v :=
  FastMap.set_then_get g hg hx hy v

/-- C3 witness: the round-trip law at the concrete grid `new FastMap(3, 3)`
with `Set(1, 2, 4)` then `Get(1, 2)`. -/
theorem claim3_witness :
    ((grid3.Set 1 2 (JsVal.val 4)).2.Get 1 2).1 = Except.ok (JsVal.val 4) := by
  have h := @claim3_roundtrip ℕ grid3 3 3 1 2
    ⟨by with_unfolding_all rfl, by with_unfolding_all rfl, by with_unfolding_all rfl⟩
    (by decide) (by decide) (JsVal.val 4)
  exact_mod_cast h

/-- C4 (confirmed): on every well-formed primary grid, writing at one valid
integer coordinate does not change what `Get` returns at any other valid
coordinate; moreover the row-major mapping `y * width + x` used by
`Convert2DTo1D` is injective on valid coordinates and reaches every linear
index below `width * height`, i.e. it is a bijection onto
`[0, width * height)`. -/
theorem claim4_independence {T : Type} (g : FastMap T) {w h x₁ y₁ x₂ y₂ : ℕ}
    (hg : g.WF w h) (hx₁ : x₁ < w) (hy₁ : y₁ < h) (hx₂ : x₂ < w) (hy₂ : y₂ < h)
    (hne : (x₁, y₁) ≠ (x₂, y₂)) (v : JsVal T) :
    (((g.Set (x₁ : ℚ) (y₁ : ℚ) v).2).Get (x₂ : ℚ) (y₂ : ℚ)).1 =
      (g.Get (x₂ : ℚ) (y₂ : ℚ)).1 ∧
    (g.Convert2DTo1D (x₁ : ℚ) (y₁ : ℚ) = g.Convert2DTo1D (x₂ : ℚ) (y₂ : ℚ) →
      (x₁, y₁) = (x₂, y₂)) ∧
    (∀ i : ℕ, i < w * h → ∃ x y : ℕ, x < w ∧ y < h ∧
      g.Convert2DTo1D (x : ℚ) (y : ℚ) = (i : ℚ)) := by
  have hidx_ne : y₁ * w + x₁ ≠ y₂ * w + x₂ := by
    intro he
    obtain ⟨hx, hy⟩ := rowMajor_inj hx₁ hx₂ he
    exact hne (by rw [hx, hy])
  refine ⟨?_, ?_, ?_⟩
  · rw [FastMap.Set_valid g hg hx₁ hy₁ v]
    have hg' := FastMap.WF_set g hg (y₁ * w + x₁) v
    rw [FastMap.Get_valid _ hg' hx₂ hy₂, FastMap.Get_valid g hg hx₂ hy₂]
    have hidx₂ : y₂ * w + x₂ < g.map.elems.length := hg.2.2 ▸ rowMajor_lt hx₂ hy₂
    simp only [List.getD_eq_getElem, List.length_set, hidx₂]
    simp [List.getElem_set_ne hidx_ne]
  · intro he
    rw [FastMap.convert_natCast g hg, FastMap.convert_natCast g hg] at he
    have : y₁ * w + x₁ = y₂ * w + x₂ := by exact_mod_cast he
    obtain ⟨hx, hy⟩ := rowMajor_inj hx₁ hx₂ this
    rw [hx, hy]
  · intro i hi
    rcases Nat.eq_zero_or_pos w with hw | hw
    · subst hw
      simp at hi
    refine ⟨i % w, i / w, Nat.mod_lt i hw, ?_, ?_⟩
    · rw [Nat.div_lt_iff_lt_mul hw]
      rw [Nat.mul_comm w h] at hi
      exact hi
    · rw [FastMap.convert_natCast g hg]
      congr 1
      rw [Nat.mul_comm (i / w) w]
      exact Nat.div_add_mod i w

/-- C4 witness: on `new FastMap(3, 3)`, `Set(1, 2, 4)` leaves `Get(2, 1)`
unchanged, and the theorem's bijectivity holds at those coordinates. -/
theorem claim4_witness :
    ((grid3.Set 1 2 (JsVal.val 4)).2.Get 2 1).1 = (grid3.Get 2 1).1 := by
  have h := @claim4_independence ℕ grid3 3 3 1 2 2 1
    ⟨by with_unfolding_all rfl, by with_unfolding_all rfl, by with_unfolding_all rfl⟩
    (by decide) (by decide) (by decide) (by decide) (by decide) (JsVal.val 4)
  exact_mod_cast h.1

/-- C5 (confirmed): for every width `w > 0` and height `h > 0` whose
product does not exceed the maximum array length, the primary constructor
succeeds, the fresh grid reports `Width() == w` and `Height() == h`, and
`Get(x, y)` returns the absent marker `null` at every in-range integer
coordinate. -/
theorem claim5_fresh_grid (T : Type) (w h : ℕ) (_hw : 0 < w) (_hh : 0 < h)
    (hmax : w * h ≤ 4294967295) :
    ∃ g : FastMap T, FastMap.make T (w : ℚ) (h : ℚ) = Except.ok g ∧
      g.Width = (w : ℚ) ∧ g.Height = (h : ℚ) ∧ g.WF w h ∧
      ∀ x y : ℕ, x < w → y < h →
        (g.Get (x : ℚ) (y : ℚ)).1 = Except.ok JsVal.jsNull := by
  have hcast : ((w : ℚ)) * (h : ℚ) = ((w * h : ℕ) : ℚ) := by push_cast; ring
  have hcond : ((w : ℚ) * (h : ℚ)).isInt = true ∧ 0 ≤ (w : ℚ) * (h : ℚ) ∧
      (w : ℚ) * (h : ℚ) ≤ jsMaxArrayLength := by
    rw [hcast]
    refine ⟨natCast_isInt _, Nat.cast_nonneg _, ?_⟩
    unfold jsMaxArrayLength
    exact_mod_cast hmax
  refine ⟨⟨⟨List.replicate (w * h) JsVal.jsNull, []⟩, (w : ℚ), (h : ℚ)⟩, ?_, rfl, rfl, ?_, ?_⟩
  · unfold FastMap.make
    rw [if_pos hcond]
    rw [hcast, natCast_toNat_num (w * h)]
  · exact ⟨rfl, rfl, by simp⟩
  · intro x y hx hy
    have hg : (⟨⟨List.replicate (w * h) JsVal.jsNull, []⟩, (w : ℚ), (h : ℚ)⟩ :
        FastMap T).WF w h := ⟨rfl, rfl, by simp⟩
    rw [FastMap.Get_valid _ hg hx hy]
    have hidx : y * w + x < w * h := rowMajor_lt hx hy
    simp [List.getD_eq_getElem, hidx]

/-- C5 witness: the theorem applied at `new FastMap(2, 3)`, reading the
in-range coordinate `(1, 2)` of the fresh grid. -/
theorem claim5_witness :
    ∃ g : FastMap ℕ, FastMap.make ℕ 2 3 = Except.ok g ∧
      g.Width = 2 ∧ g.Height = 3 ∧
      (g.Get 1 2).1 = Except.ok JsVal.jsNull := by
  obtain ⟨g, hmk, hW, hH, -, hget⟩ :=
    claim5_fresh_grid ℕ 2 3 (by decide) (by decide) (by decide)
  refine ⟨g, ?_, ?_, ?_, ?_⟩
  · exact_mod_cast hmk
  · exact_mod_cast hW
  · exact_mod_cast hH
  · have := hget 1 2 (by decide) (by decide)
    exact_mod_cast this

/-- C6 (confirmed): on every well-formed primary grid and in-range integer
coordinate, writing `v₁` then `v₂` and reading back yields `v₂`
(overwrite law), and writing `v` then the absent marker `null` and reading
back yields `null` (clearing law). -/
theorem claim6_overwrite_clear {T : Type} (g : FastMap T) {w h x y : ℕ}
    (hg : g.WF w h) (hx : x < w) (hy : y < h) (v₁ v₂ v : JsVal T) :
    (((((g.Set (x : ℚ) (y : ℚ) v₁).2).Set (x : ℚ) (y : ℚ) v₂).2).Get
        (x : ℚ) (y : ℚ)).1 = Except.ok v₂ ∧
    (((((g.Set (x : ℚ) (y : ℚ) v).2).Set (x : ℚ) (y : ℚ) JsVal.jsNull).2).Get
        (x : ℚ) (y : ℚ)).1 = Except.ok JsVal.jsNull := by
  constructor
  · rw [FastMap.Set_valid g hg hx hy v₁]
    exact FastMap.set_then_get _ (FastMap.WF_set g hg _ v₁) hx hy v₂
  · rw [FastMap.Set_valid g hg hx hy v]
    exact FastMap.set_then_get _ (FastMap.WF_set g hg _ v) hx hy JsVal.jsNull

/-- C6 witness: on `new FastMap(3, 3)`, `Set(0, 0, 42)`, `Set(0, 0, 7)`,
`Get(0, 0) == 7`, and `Set(0, 0, 42)`, `Set(0, 0, null)`,
`Get(0, 0) == null`. -/
theorem claim6_witness :
    ((((grid3.Set 0 0 (JsVal.val 42)).2).Set 0 0 (JsVal.val 7)).2.Get 0 0).1 =
      Except.ok (JsVal.val 7) ∧
    ((((grid3.Set 0 0 (JsVal.val 42)).2).Set 0 0 JsVal.jsNull).2.Get 0 0).1 =
      Except.ok JsVal.jsNull := by
  have h := @claim6_overwrite_clear ℕ grid3 3 3 0 0
    ⟨by with_unfolding_all rfl, by with_unfolding_all rfl, by with_unfolding_all rfl⟩
    (by decide) (by decide) (JsVal.val 42) (JsVal.val 7) (JsVal.val 42)
  exact_mod_cast h

/-- C7 (amended): in the primary implementation, `Get` is purely
observational — whatever the coordinates (in range, out of range, or
non-integer), it returns the grid state unchanged, so a `Get` never alters
the result of a later `Get`.  In the memoizing variant the same statement
is false: its `Get` writes to the internal cache, and the cached value is
later coerced through `|| null`, which can change the result of a
subsequent `Get` (see the counterexample). -/
theorem claim7_get_pure {T : Type} (g : FastMap T) (x y x₂ y₂ : ℚ) :
    (g.Get x y).2 = g ∧ ((g.Get x y).2.Get x₂ y₂).1 = (g.Get x₂ y₂).1 := by
  have h1 : (g.Get x y).2 = g := by
    unfold FastMap.Get
    split <;> rfl
  exact ⟨h1, by rw [h1]⟩

/-- C7 counterexample: in the memoizing variant over JS numbers, after
`Set(1, 1, 0)` on a fresh 3 × 3 grid, the first `Get(1, 1)` returns `0`
and mutates the grid state (it populates the cache), and the second
`Get(1, 1)` returns `null` — a `Get` altered a later observation, so
"Get leaves the entire grid state unchanged" is false of the memoizing
variant cited by the claim. -/
theorem claim7_counterexample :
    (memoGrid1.Get 1 1).1 = Except.ok (JsVal.val 0) ∧
    ((memoGrid1.Get 1 1).2.Get 1 1).1 = Except.ok JsVal.jsNull ∧
    (memoGrid1.Get 1 1).2 ≠ memoGrid1 := by
  refine ⟨?_, ?_, ?_⟩
  · with_unfolding_all rfl
  · with_unfolding_all rfl
  · with_unfolding_all decide

/-- C8 (confirmed): in the unchecked-accessor variant, on every
well-formed grid and in-range integer coordinate, `Get` returns exactly
what `GetUnsafe` returns (and leaves the state unchanged), and `Set`
produces exactly the state `SetUnsafe` produces: the unchecked accessors
agree with the checked ones whenever the coordinates are in range. -/
theorem claim8_unchecked_equiv {T : Type} (g : FastMapU T) {w h x y : ℕ}
    (hg : g.WF w h) (hx : x < w) (hy : y < h) (v : JsVal T) :
    g.Get (x : ℚ) (y : ℚ) = (Except.ok (g.GetUnchecked (x : ℚ) (y : ℚ)), g) ∧
    g.Set (x : ℚ) (y : ℚ) v = (Except.ok (), g.SetUnchecked (x : ℚ) (y : ℚ) v) := by
  have hc := FastMapU.check_valid_of_lt g hg hx hy
  constructor
  · unfold FastMapU.Get
    rw [hc]
    rfl
  · unfold FastMapU.Set
    rw [hc]
    rfl

/-- C8 witness: on a fresh 2 × 2 unchecked-variant grid, the checked and
unchecked accessors agree at `(1, 0)`. -/
theorem claim8_witness :
    gridU.Get 1 0 = (Except.ok (gridU.GetUnchecked 1 0), gridU) ∧
    gridU.Set 1 0 (JsVal.val 9) =
      (Except.ok (), gridU.SetUnchecked 1 0 (JsVal.val 9)) := by
  have h := @claim8_unchecked_equiv ℕ gridU 2 2 1 0
    ⟨by with_unfolding_all rfl, by with_unfolding_all rfl, by with_unfolding_all rfl⟩
    (by decide) (by decide) (JsVal.val 9)
  exact_mod_cast h

/-- C9 (amended): in the primary implementation every operation preserves
the dimensions — `Get` (successful or failing) returns the state
unchanged, and `Set` (successful or failing) never alters `width` or
`height` — and a `Set` with integer coordinates preserves the invariant
`storage.length == width * height`.  A `Set` with non-integer in-range
coordinates, however, can enlarge the storage (see the counterexample),
so the invariant does not hold "at all times" as claimed. -/
theorem claim9_invariants {T : Type} (g : FastMap T) {w h : ℕ} (hg : g.WF w h)
    (x y : ℚ) (v : JsVal T) :
    (g.Set x y v).2.width = g.width ∧ (g.Set x y v).2.height = g.height ∧
    (g.Get x y).2 = g ∧
    (x.isInt = true → y.isInt = true → ((g.Set x y v).2).WF w h) := by
  refine ⟨?_, ?_, ?_, ?_⟩
  · unfold FastMap.Set
    split <;> rfl
  · unfold FastMap.Set
    split <;> rfl
  · unfold FastMap.Get
    split <;> rfl
  · intro hxi hyi
    by_cases hcv : g.CheckIndicesAreValid x y = true
    · have hb := hcv
      simp only [FastMap.CheckIndicesAreValid, Bool.and_eq_true,
        decide_eq_true_eq] at hb
      obtain ⟨⟨⟨hx0, hxw⟩, hy0⟩, hyh⟩ := hb
      have hxe : x = ((x.num.toNat : ℕ) : ℚ) := Rat.eq_natCast_of_isInt hxi hx0
      have hye : y = ((y.num.toNat : ℕ) : ℚ) := Rat.eq_natCast_of_isInt hyi hy0
      have hxlt : x.num.toNat < w := by
        rw [hg.1] at hxw
        rw [hxe] at hxw
        exact_mod_cast hxw
      have hylt : y.num.toNat < h := by
        rw [hg.2.1] at hyh
        rw [hye] at hyh
        exact_mod_cast hyh
      rw [hxe, hye, FastMap.Set_valid g hg hxlt hylt v]
      exact FastMap.WF_set g hg _ v
    · unfold FastMap.Set
      rw [if_pos (by simp [hcv])]
      exact hg

/-- C9 counterexample: on the well-formed 3 × 3 primary grid (storage
length 9), `Set(2.5, 2.5, 7)` passes the bounds check (2.5 is within
`[0, 3)`), computes linear index `2.5 * 3 + 2.5 = 10`, and the JS
assignment `map[10] = 7` extends the array: afterwards
`storage.length = 11 ≠ 9 = width * height`, so the invariant does not
hold at all times. -/
theorem claim9_counterexample :
    grid3.WF 3 3 ∧
    (grid3.Set (5/2) (5/2) (JsVal.val 7)).1 = Except.ok () ∧
    (grid3.Set (5/2) (5/2) (JsVal.val 7)).2.map.elems.length = 11 := by
  refine ⟨⟨?_, ?_, ?_⟩, ?_, ?_⟩ <;> with_unfolding_all rfl

/-- C9 witness: the amended theorem applied to the 3 × 3 grid at the
integer coordinate `(2, 1)`: dimensions are preserved and the storage
length stays `9 = 3 * 3`. -/
theorem claim9_witness :
    ((grid3.Set 2 1 (JsVal.val 5)).2.width = grid3.width ∧
     (grid3.Set 2 1 (JsVal.val 5)).2.height = grid3.height) ∧
    (grid3.Get 2 1).2 = grid3 ∧
    ((grid3.Set 2 1 (JsVal.val 5)).2).WF 3 3 := by
  have h := @claim9_invariants ℕ grid3 3 3
    ⟨by with_unfolding_all rfl, by with_unfolding_all rfl, by with_unfolding_all rfl⟩
    2 1 (JsVal.val 5)
  exact ⟨⟨h.1, h.2.1⟩, h.2.2.1,
    h.2.2.2 (by with_unfolding_all rfl) (by with_unfolding_all rfl)⟩

/-- C10 (amended): the primary constructor performs no validation of its
own, and `Width()`/`Height()` afterwards return exactly the arguments as
passed (even fractional ones, e.g. `Grid(2.5, 4)`); but construction does
NOT succeed for every numeric pair: the allocation `new Array(w * h)`
throws a `RangeError` whenever `w * h` is negative, fractional, or larger
than `2 ^ 32 - 1` (see the counterexample `Grid(-1, 5)`). -/
theorem claim10_constructor_passthrough (T : Type) (w h : ℚ) :
    (((w * h).isInt = true ∧ 0 ≤ w * h ∧ w * h ≤ jsMaxArrayLength) →
      ∀ g : FastMap T, FastMap.make T w h = Except.ok g →
        g.Width = w ∧ g.Height = h) ∧
    (¬ ((w * h).isInt = true ∧ 0 ≤ w * h ∧ w * h ≤ jsMaxArrayLength) →
      FastMap.make T w h = Except.error "Invalid array length") := by
  constructor
  · intro hcond g hok
    unfold FastMap.make at hok
    rw [if_pos hcond] at hok
    cases hok
    exact ⟨rfl, rfl⟩
  · intro hcond
    unfold FastMap.make
    rw [if_neg hcond]

/-- C10 counterexample: `new FastMap(-1, 5)` in the primary implementation
does raise — `new Array(-5)` throws a `RangeError` — so "construction
succeeds for every numeric pair, including negative values" is false. -/
theorem claim10_counterexample :
    FastMap.make ℕ (-1) 5 = Except.error "Invalid array length" := by
  with_unfolding_all rfl

/-- C10 witness: the amended theorem applied at exact passthrough of the
fractional pair `(2.5, 4)` (product `10`, a valid array length):
construction succeeds and `Width()` returns `2.5` verbatim. -/
theorem claim10_witness :
    FastMap.make ℕ (5/2) 4 =
      Except.ok ⟨⟨List.replicate 10 JsVal.jsNull, []⟩, 5/2, 4⟩ ∧
    (⟨⟨List.replicate 10 JsVal.jsNull, []⟩, 5/2, 4⟩ : FastMap ℕ).Width = 5/2 ∧
    (⟨⟨List.replicate 10 JsVal.jsNull, []⟩, 5/2, 4⟩ : FastMap ℕ).Height = 4 := by
  have hmk : FastMap.make ℕ (5/2) 4 =
      Except.ok ⟨⟨List.replicate 10 JsVal.jsNull, []⟩, 5/2, 4⟩ := by
    with_unfolding_all rfl
  exact ⟨hmk,
    (claim10_constructor_passthrough ℕ (5/2) 4).1
      (by refine ⟨?_, ?_, ?_⟩ <;> with_unfolding_all decide) _ hmk⟩
